import Mathlib

/-!
# Verification of the papyrus state-diff synchronization engine

Shallow embedding of `crates/papyrus_sync/src/state.rs`:
the diff normalizer (`sort_state_diff`), the reorg classifier (`is_reverted`),
the commit router's routing operation (`store_state_diff`), the sync-loop pass
(`stream_new_state_diffs`) and the driver loop (`run_state_diff_sync`).

Block numbers and block hashes are modelled as `Nat` (the source treats both as
opaque totally-ordered / equality-compared identifiers).  `IndexMap`s are
modelled as association lists (`List (Nat × α)`): the map's iteration order is
the list order, which is exactly what `sort_unstable_keys` permutes.
-/

namespace Papyrus

/-! ## Definitions: the diff normalizer -/

/-- Key-ordering relation used by `sort_unstable_keys`: compare entries of an
`IndexMap` by their key (first component). -/
def keyLE {α : Type} (a b : Nat × α) : Prop := a.1 ≤ b.1

/-- Strict version of `keyLE`, used to exploit key uniqueness. -/
def keyLT {α : Type} (a b : Nat × α) : Prop := a.1 < b.1

instance {α : Type} : DecidableRel (keyLE (α := α)) :=
  fun a b => inferInstanceAs (Decidable (a.1 ≤ b.1))

instance {α : Type} : IsTotal (Nat × α) keyLE :=
  ⟨fun a b => Nat.le_total a.1 b.1⟩

instance {α : Type} : IsTrans (Nat × α) keyLE :=
  ⟨fun _ _ _ h1 h2 => Nat.le_trans h1 h2⟩

instance {α : Type} : IsTrans (Nat × α) keyLT :=
  ⟨fun _ _ _ h1 h2 => Nat.lt_trans h1 h2⟩

instance {α : Type} : IsAntisymm (Nat × α) keyLT :=
  ⟨fun _ _ h1 h2 => absurd (Nat.lt_trans h1 h2) (Nat.lt_irrefl _)⟩

/-- `IndexMap::sort_unstable_keys`: reorder the entries of an association list
into ascending key order (keys are unique, so any comparison sort yields the
same list; we use insertion sort). -/
def sortKeys {α : Type} (l : List (Nat × α)) : List (Nat × α) :=
  List.insertionSort keyLE l

/-- The keys of an association list, in iteration order. -/
def keysOf {α : Type} (l : List (Nat × α)) : List Nat :=
  l.map Prod.fst

/-- The inner normalization step applied to each per-contract storage entry:
keep the contract key, sort the entry map. -/
def sortEntry : Nat × List (Nat × Nat) → Nat × List (Nat × Nat) :=
  fun p => (p.1, sortKeys p.2)

/-- `starknet_api::state::StateDiff`, modelled from the spec's data model (§3):
four sorted-on-normalization mappings (deployed contracts, per-contract storage
writes, declared classes, nonces) plus the deprecated-class-declaration mapping
and the replaced-class mapping.  Values are opaque; declared classes carry a
(compiled-class hash, class definition) pair. -/
structure StateDiff where
  deployed_contracts : List (Nat × Nat)
  storage_diffs : List (Nat × List (Nat × Nat))
  declared_classes : List (Nat × (Nat × Nat))
  deprecated_declared_classes : List (Nat × Nat)
  nonces : List (Nat × Nat)
  replaced_classes : List (Nat × Nat)
deriving DecidableEq, Repr

/-- `sort_state_diff` from `state.rs`: sort the keys of `declared_classes`,
`deployed_contracts`, `nonces` and `storage_diffs`, then sort each per-contract
storage-entry map.  (`deprecated_declared_classes` and `replaced_classes` are
not touched by the source.) -/
def sort_state_diff (d : StateDiff) : StateDiff :=
  { d with
    declared_classes := sortKeys d.declared_classes
    deployed_contracts := sortKeys d.deployed_contracts
    nonces := sortKeys d.nonces
    storage_diffs := (sortKeys d.storage_diffs).map sortEntry }

/-- Logical equality of two storage-diff mappings: the same per-contract
entry maps (up to entry order) under the same contract keys (up to key
order). -/
def storageEquiv (l1 l2 : List (Nat × List (Nat × Nat))) : Prop :=
  ∃ l, List.Perm l1 l ∧
    List.Forall₂ (fun p q : Nat × List (Nat × Nat) =>
      p.1 = q.1 ∧ List.Perm p.2 q.2) l l2

/-- Two state diffs that are equal as mappings: every internal mapping holds
the same key-to-value pairs (list order disregarded), recursively for the
per-contract storage entries. -/
def eqAsMappings (d1 d2 : StateDiff) : Prop :=
  List.Perm d1.deployed_contracts d2.deployed_contracts ∧
  storageEquiv d1.storage_diffs d2.storage_diffs ∧
  List.Perm d1.declared_classes d2.declared_classes ∧
  List.Perm d1.deprecated_declared_classes d2.deprecated_declared_classes ∧
  List.Perm d1.nonces d2.nonces ∧
  List.Perm d1.replaced_classes d2.replaced_classes

/-- Key uniqueness (spec §3: keys are unique within each mapping) for the
mappings `sort_state_diff` sorts, including per-contract entry maps. -/
def uniqueKeys (d : StateDiff) : Prop :=
  (keysOf d.deployed_contracts).Nodup ∧
  (keysOf d.storage_diffs).Nodup ∧
  (∀ p ∈ d.storage_diffs, (keysOf p.2).Nodup) ∧
  (keysOf d.declared_classes).Nodup ∧
  (keysOf d.nonces).Nodup

/-! ## Definitions: storage, errors, the classifier and the router -/

/-- Class-definition sets delivered alongside a diff (class hash → class body). -/
def ClassDefs : Type := List (Nat × Nat)

instance : DecidableEq ClassDefs := inferInstanceAs (DecidableEq (List (Nat × Nat)))

instance : Repr ClassDefs := inferInstanceAs (Repr (List (Nat × Nat)))

instance {ε α : Type} [DecidableEq ε] [DecidableEq α] : DecidableEq (Except ε α) :=
  fun a b =>
    match a, b with
    | .error e1, .error e2 =>
      if h : e1 = e2 then isTrue (h ▸ rfl)
      else isFalse fun hc => h (Except.error.inj hc)
    | .ok a1, .ok a2 =>
      if h : a1 = a2 then isTrue (h ▸ rfl)
      else isFalse fun hc => h (Except.ok.inj hc)
    | .error _, .ok _ => isFalse fun hc => Except.noConfusion hc
    | .ok _, .error _ => isFalse fun hc => Except.noConfusion hc

/-- The error taxonomy of `StateSyncError` visible in `state.rs` (spec §7):
storage read failures, storage commit failures, upstream source failures, and
a failed send on the event channel. -/
inductive SyncError where
  | storageRead
  | storageCommit
  | sourceError
  | channelSend
deriving DecidableEq, Repr

/-- The persisted chain state behind the storage facade: canonical headers by
block number (a header is identified by its hash, the only field `state.rs`
reads), the two markers, canonical state diffs by block number, and the ommer
records keyed by block hash. -/
structure Storage where
  headers : Nat → Option Nat
  stateMarker : Nat
  headerMarker : Nat
  diffs : List (Nat × StateDiff)
  ommers : List (Nat × StateDiff × ClassDefs)

/-- Fault environment: which fallible storage operations fail during one call.
`readFail` covers `begin_ro_txn`/`get_block_header`/marker reads, `appendFail`
forces a structural `append_state_diff` failure, `ommerFail` a structural
`insert_ommer_state_diff` failure, and `commitFail` a `commit()` failure. -/
structure Faults where
  readFail : Bool
  appendFail : Bool
  ommerFail : Bool
  commitFail : Bool
deriving DecidableEq, Repr

/-- The fault-free environment. -/
def noFaults : Faults :=
  { readFail := false, appendFail := false, ommerFail := false, commitFail := false }

/-- `is_reverted` from `state.rs`: read the stored header at `block_number`;
`some true` if it exists with a different hash, `some false` if it exists with
the same hash, `none` if no header is stored yet; a read failure propagates. -/
def is_reverted (f : Faults) (s : Storage) (block_number block_hash : Nat) :
    Except SyncError (Option Bool) :=
  if f.readFail then .error .storageRead
  else
    match s.headers block_number with
    | some storage_hash => .ok (some (decide (storage_hash ≠ block_hash)))
    | none => .ok none

/-- Observable outcome of one `store_state_diff` call. -/
inductive RouteAction where
  | canonicalAppend
  | canonicalSkip
  | ommerInsert
  | ommerSkip
deriving DecidableEq, Repr

/-- Modelled from the spec: `papyrus_storage`'s `append_state_diff` is not under
`src/`; per §4.4 and §3 it appends the diff at `block_number` and advances the
state marker, failing structurally on a marker mismatch (the marker is not at
`block_number`) or when the diff would run ahead of its header (the state
marker is not below the header marker). -/
def append_state_diff (f : Faults) (s : Storage) (block_number : Nat)
    (state_diff : StateDiff) : Option Storage :=
  if f.appendFail then none
  else if block_number = s.stateMarker ∧ s.stateMarker < s.headerMarker then
    some { s with
      stateMarker := block_number + 1
      diffs := (block_number, state_diff) :: s.diffs }
  else none

/-- Modelled from the spec: `papyrus_storage`'s `insert_ommer_state_diff` is not
under `src/`; per §4.4 and §3 it records the diff and its class definitions as
an `OmmerRecord` keyed by `block_hash`, leaving canonical storage and its
markers untouched, and may fail structurally. -/
def insert_ommer_state_diff (f : Faults) (s : Storage) (block_hash : Nat)
    (state_diff : StateDiff) (defs : ClassDefs) : Option Storage :=
  if f.ommerFail then none
  else some { s with ommers := (block_hash, state_diff, defs) :: s.ommers }

/-- `store_state_diff` from `state.rs`.  A read failure of `is_reverted`
propagates (`?`).  On verdict `some false` (confirmed) it attempts the
canonical append; on success it commits (`commit()?` propagates a commit
failure), on structural failure it silently skips.  On any other verdict
(`some true` diverged, or `none` unknown) it attempts the ommer insert with the
same skip/commit discipline.  An error result models a rolled-back transaction:
the returned storage is unchanged. -/
def store_state_diff (f : Faults) (s : Storage) (block_number block_hash : Nat)
    (state_diff : StateDiff) (defs : ClassDefs) :
    Storage × Except SyncError RouteAction :=
  match is_reverted f s block_number block_hash with
  | .error e => (s, .error e)
  | .ok (some false) =>
    match append_state_diff f s block_number state_diff with
    | some s1 =>
      if f.commitFail then (s, .error .storageCommit)
      else (s1, .ok .canonicalAppend)
    | none => (s, .ok .canonicalSkip)
  | .ok _ =>
    match insert_ommer_state_diff f s block_hash state_diff defs with
    | some s1 =>
      if f.commitFail then (s, .error .storageCommit)
      else (s1, .ok .ommerInsert)
    | none => (s, .ok .ommerSkip)

/-- The canonical side of storage (headers, markers, canonical diffs) — the
part an ommer insert must not touch. -/
def canonicalUnchanged (s s1 : Storage) : Prop :=
  s1.headers = s.headers ∧ s1.stateMarker = s.stateMarker ∧
    s1.headerMarker = s.headerMarker ∧ s1.diffs = s.diffs

/-! ## Definitions: the sync loop -/

/-- The two sleep durations of `SyncConfig` used by `state.rs` (both positive
durations; modelled as abstract numeric durations). -/
structure SyncConfig where
  block_propagation_sleep_duration : Nat
  recoverable_error_sleep_duration : Nat
deriving DecidableEq, Repr

/-- One tuple yielded by `stream_state_updates`:
`(block_number, block_hash, state_diff, deployed_contract_class_definitions)`. -/
def Item : Type := Nat × Nat × StateDiff × ClassDefs

instance : DecidableEq Item :=
  inferInstanceAs (DecidableEq (Nat × Nat × StateDiff × ClassDefs))

/-- Observable actions of one pass of the sync loop, in order: the range
requested from the upstream source, each `SyncEvent` sent on the channel (with
the diff exactly as sent, i.e. after normalization), and each sleep with its
duration. -/
inductive TraceEvent where
  | fetched (lo hi : Nat)
  | sent (block_number block_hash : Nat) (state_diff : StateDiff) (defs : ClassDefs)
  | slept (duration : Nat)
deriving DecidableEq, Repr

/-- The `while let` body of `stream_new_state_diffs` over the items of the
fetched stream: a stream error propagates (`?`); otherwise the diff is
normalized in place, the `SyncEvent` is sent (a send on a closed channel fails
and the error propagates), and only then the pair is classified; on verdict
`some true` (diverged) the loop sleeps `recoverable_error_sleep_duration` and
breaks (the pass itself returns `Ok`), on a classification read error the error
propagates, and otherwise the next item is consumed. -/
def process_items (cfg : SyncConfig) (f : Faults) (chOpen : Bool) (s : Storage) :
    List (Except SyncError Item) → List TraceEvent × Except SyncError Unit
  | [] => ([], .ok ())
  | .error e :: _ => ([], .error e)
  | .ok (block_number, block_hash, state_diff, defs) :: rest =>
    let sorted := sort_state_diff state_diff
    if chOpen then
      match is_reverted f s block_number block_hash with
      | .error e => ([.sent block_number block_hash sorted defs], .error e)
      | .ok (some true) =>
        ([.sent block_number block_hash sorted defs,
          .slept cfg.recoverable_error_sleep_duration], .ok ())
      | .ok _ =>
        let next := process_items cfg f chOpen s rest
        (.sent block_number block_hash sorted defs :: next.1, next.2)
    else ([], .error .channelSend)

/-- One pass of `stream_new_state_diffs`: read the two markers under a
read-only transaction (a read failure propagates); if the state marker equals
the header marker, sleep `block_propagation_sleep_duration` and return `Ok`;
otherwise request `stream_state_updates(state_marker, header_marker)` and
consume it with `process_items`. -/
def stream_new_state_diffs (cfg : SyncConfig) (f : Faults) (chOpen : Bool)
    (s : Storage) (source : Nat → Nat → List (Except SyncError Item)) :
    List TraceEvent × Except SyncError Unit :=
  if f.readFail then ([], .error .storageRead)
  else if s.stateMarker = s.headerMarker then
    ([.slept cfg.block_propagation_sleep_duration], .ok ())
  else
    let next := process_items cfg f chOpen s (source s.stateMarker s.headerMarker)
    (.fetched s.stateMarker s.headerMarker :: next.1, next.2)

/-- What the driver loop does after one pass. -/
inductive LoopAction where
  | sleepThenContinue
  | continueNow
  | exitLoop
deriving DecidableEq, Repr

/-- The body of the `loop` in `run_state_diff_sync`: an `Err` from the pass is
logged, slept on (`recoverable_error_sleep_duration`) and the loop continues;
an `Ok` continues immediately.  The source contains no `break` or `return`, so
no pass outcome produces `exitLoop`. -/
def run_state_diff_sync_step (r : Except SyncError Unit) : LoopAction :=
  match r with
  | .error _ => .sleepThenContinue
  | .ok _ => .continueNow

/-! ## Definitions: engine operation sequences and the router loop -/

/-- An operation that can touch the markers: a commit-router routing call, or
(modelled from the spec: the header-sync pipeline is not under `src/`; per §3
and §5 it appends the next header and advances the header marker) a header
append. -/
inductive EngineOp where
  | route (f : Faults) (block_number block_hash : Nat) (state_diff : StateDiff)
      (defs : ClassDefs)
  | appendHeader (block_hash : Nat)

/-- Apply one engine operation to storage. -/
def applyOp (s : Storage) : EngineOp → Storage
  | .route f block_number block_hash state_diff defs =>
    (store_state_diff f s block_number block_hash state_diff defs).1
  | .appendHeader block_hash =>
    { s with
      headers := fun m => if m = s.headerMarker then some block_hash else s.headers m
      headerMarker := s.headerMarker + 1 }

/-- Apply a sequence of engine operations to storage, oldest first. -/
def applyOps (s : Storage) : List EngineOp → Storage
  | [] => s
  | op :: rest => applyOps (applyOp s op) rest

/-- Modelled from the spec: the commit router's consumer loop (in the crate
root, not under `src/`) routes each received item with `store_state_diff` and,
per §4.4, proceeds to the next item whatever the per-item outcome was. -/
def commit_router_run (s : Storage) : List (Faults × Item) → Storage
  | [] => s
  | (f, (block_number, block_hash, state_diff, defs)) :: rest =>
    commit_router_run (store_state_diff f s block_number block_hash state_diff defs).1 rest

/-! ## Definitions: concrete objects used by witnesses and counterexamples -/

/-- A header table holding exactly one header. -/
def hdrAt (n h : Nat) : Nat → Option Nat :=
  fun m => if m = n then some h else none

/-- The empty state diff. -/
def emptyDiff : StateDiff :=
  { deployed_contracts := [], storage_diffs := [], declared_classes := []
    deprecated_declared_classes := [], nonces := [], replaced_classes := [] }

/-- Storage with a single header `(3, 9)`, state marker 3, header marker 5. -/
def storage39 : Storage :=
  { headers := hdrAt 3 9, stateMarker := 3, headerMarker := 5, diffs := [], ommers := [] }

/-- Storage with no headers at all and both markers 0. -/
def emptyStorage : Storage :=
  { headers := fun _ => none, stateMarker := 0, headerMarker := 0, diffs := [], ommers := [] }

/-- Storage with inverted markers: state marker 3, header marker 0. -/
def invStorage : Storage :=
  { headers := fun _ => none, stateMarker := 3, headerMarker := 0, diffs := [], ommers := [] }

/-- Storage ready to sync: header `(0, 9)` stored, state marker 0, header
marker 2. -/
def syncStorage : Storage :=
  { headers := hdrAt 0 9, stateMarker := 0, headerMarker := 2, diffs := [], ommers := [] }

/-- A configuration with both sleep durations equal to 1. -/
def cfg11 : SyncConfig :=
  { block_propagation_sleep_duration := 1, recoverable_error_sleep_duration := 1 }

/-- An upstream source that yields no items for any range. -/
def noSource : Nat → Nat → List (Except SyncError Item) := fun _ _ => []

/-- An upstream source that yields the single item `(0, 9, emptyDiff, [])`. -/
def oneItemSource : Nat → Nat → List (Except SyncError Item) :=
  fun _ _ => [.ok (0, 9, emptyDiff, [])]

/-- A diff whose deprecated-class mapping is `{1 ↦ 10, 2 ↦ 20}` in that
insertion order. -/
def diffDep12 : StateDiff :=
  { emptyDiff with deprecated_declared_classes := [(1, 10), (2, 20)] }

/-- The same mapping as `diffDep12` with the opposite insertion order. -/
def diffDep21 : StateDiff :=
  { emptyDiff with deprecated_declared_classes := [(2, 20), (1, 10)] }

/-- A diff whose nonce mapping is `{2 ↦ 5, 1 ↦ 4}` in that insertion order. -/
def diffNon21 : StateDiff :=
  { emptyDiff with nonces := [(2, 5), (1, 4)] }

/-- The same mapping as `diffNon21` with the opposite insertion order. -/
def diffNon12 : StateDiff :=
  { emptyDiff with nonces := [(1, 4), (2, 5)] }

/-- A fault environment in which both structural writes fail but reads and
commits succeed. -/
def structFaults : Faults :=
  { readFail := false, appendFail := true, ommerFail := true, commitFail := false }

/-! ## Lemmas: determinism and idempotence of `sortKeys` -/

theorem sortKeys_perm {α : Type} (l : List (Nat × α)) :
    List.Perm (sortKeys l) l :=
  List.perm_insertionSort keyLE l

theorem sortKeys_sorted {α : Type} (l : List (Nat × α)) :
    List.Sorted keyLE (sortKeys l) :=
  List.sorted_insertionSort keyLE l

/-- A list that is sorted by key and has no duplicate keys is strictly sorted
by key. -/
theorem sorted_keyLT_of_nodup {α : Type} {l : List (Nat × α)}
    (hs : List.Sorted keyLE l) (hnd : (keysOf l).Nodup) :
    List.Sorted keyLT l := by
  have hnd' : l.Pairwise fun a b : Nat × α => a.1 ≠ b.1 := by
    simpa [keysOf, List.Nodup, List.pairwise_map] using hnd
  exact (hs.and hnd').imp fun h => Nat.lt_of_le_of_ne h.1 h.2

/-- Key uniqueness makes the sort deterministic: two association lists that are
permutations of one another (same key-value pairs) and have unique keys sort to
the same list. -/
theorem sortKeys_eq_of_perm {α : Type} {l1 l2 : List (Nat × α)}
    (hp : List.Perm l1 l2) (hnd : (keysOf l1).Nodup) :
    sortKeys l1 = sortKeys l2 := by
  have hnd1 : (keysOf (sortKeys l1)).Nodup :=
    (((sortKeys_perm l1).map Prod.fst).nodup_iff).mpr hnd
  have hnd2 : (keysOf (sortKeys l2)).Nodup := by
    have hnd2' : (keysOf l2).Nodup := ((hp.map Prod.fst).nodup_iff).mp hnd
    exact (((sortKeys_perm l2).map Prod.fst).nodup_iff).mpr hnd2'
  have hperm : List.Perm (sortKeys l1) (sortKeys l2) :=
    ((sortKeys_perm l1).trans hp).trans (sortKeys_perm l2).symm
  exact List.eq_of_perm_of_sorted hperm
    (sorted_keyLT_of_nodup (sortKeys_sorted l1) hnd1)
    (sorted_keyLT_of_nodup (sortKeys_sorted l2) hnd2)

theorem sortKeys_idem {α : Type} (l : List (Nat × α)) :
    sortKeys (sortKeys l) = sortKeys l :=
  List.Sorted.insertionSort_eq (sortKeys_sorted l)

/-- Sorting commutes with any map that preserves keys. -/
theorem sortKeys_map_keyPreserving {α β : Type} (g : Nat × α → Nat × β)
    (hg : ∀ p, (g p).1 = p.1) (l : List (Nat × α)) :
    sortKeys (l.map g) = (sortKeys l).map g := by
  unfold sortKeys
  refine (List.map_insertionSort keyLE keyLE g l ?_).symm
  intro a _ b _
  show keyLE a b ↔ keyLE (g a) (g b)
  simp [keyLE, hg]

theorem sortEntry_key (p : Nat × List (Nat × Nat)) : (sortEntry p).1 = p.1 := rfl

theorem forall2_sortEntry_left (l : List (Nat × List (Nat × Nat))) :
    List.Forall₂ (fun p q : Nat × List (Nat × Nat) =>
      p.1 = q.1 ∧ List.Perm p.2 q.2) (l.map sortEntry) l := by
  induction l with
  | nil => exact List.Forall₂.nil
  | cons a t ih => exact List.Forall₂.cons ⟨rfl, sortKeys_perm a.2⟩ ih

/-- Entry-wise: logically equal entries with unique inner keys normalize to
equal entries. -/
theorem map_sortEntry_eq_of_forall2 :
    ∀ {l l2 : List (Nat × List (Nat × Nat))},
      List.Forall₂ (fun p q : Nat × List (Nat × Nat) =>
        p.1 = q.1 ∧ List.Perm p.2 q.2) l l2 →
      (∀ p ∈ l, (keysOf p.2).Nodup) →
      l.map sortEntry = l2.map sortEntry := by
  intro l l2 hf
  induction hf with
  | nil => intro _; rfl
  | cons hab h ih =>
    intro hnd
    have htail := ih fun p hp => hnd p (List.mem_cons_of_mem _ hp)
    have hval := sortKeys_eq_of_perm hab.2 (hnd _ (List.mem_cons_self _ _))
    simp only [List.map_cons, htail, List.cons.injEq]
    exact ⟨by simp [sortEntry, hab.1, hval], trivial⟩

/-- The keys of a storage-diff mapping are untouched by entry-wise
normalization. -/
theorem keysOf_map_sortEntry (l : List (Nat × List (Nat × Nat))) :
    keysOf (l.map sortEntry) = keysOf l := by
  simp only [keysOf, List.map_map]
  exact List.map_congr_left fun p _ => rfl

/-- Sorting the outer storage-diff mapping and each inner entry map is
deterministic on logically equal storage diffs with unique keys. -/
theorem storage_sort_eq {l1 l2 : List (Nat × List (Nat × Nat))}
    (heq : storageEquiv l1 l2) (hnd : (keysOf l1).Nodup)
    (hin : ∀ p ∈ l1, (keysOf p.2).Nodup) :
    (sortKeys l1).map sortEntry = (sortKeys l2).map sortEntry := by
  obtain ⟨l, hperm, hf⟩ := heq
  have hin' : ∀ p ∈ l, (keysOf p.2).Nodup := fun p hp => hin p (hperm.mem_iff.mpr hp)
  have hmapeq : l.map sortEntry = l2.map sortEntry :=
    map_sortEntry_eq_of_forall2 hf hin'
  have hmperm : List.Perm (l1.map sortEntry) (l2.map sortEntry) :=
    hmapeq ▸ hperm.map sortEntry
  have hmnd : (keysOf (l1.map sortEntry)).Nodup :=
    (keysOf_map_sortEntry l1) ▸ hnd
  have hsorted := sortKeys_eq_of_perm hmperm hmnd
  rwa [sortKeys_map_keyPreserving sortEntry sortEntry_key,
    sortKeys_map_keyPreserving sortEntry sortEntry_key] at hsorted

/-- Normalizing the storage-diff mapping twice equals normalizing it once. -/
theorem storage_sort_idem (l : List (Nat × List (Nat × Nat))) :
    (sortKeys ((sortKeys l).map sortEntry)).map sortEntry =
      (sortKeys l).map sortEntry := by
  rw [sortKeys_map_keyPreserving sortEntry sortEntry_key, sortKeys_idem,
    List.map_map]
  exact List.map_congr_left fun p _ => by simp [sortEntry, sortKeys_idem]

/-! ## Lemmas: classifier verdicts -/

theorem is_reverted_unknown {f : Faults} {s : Storage} {n : Nat} (h : Nat)
    (hr : f.readFail = false) (hh : s.headers n = none) :
    is_reverted f s n h = .ok none := by
  unfold is_reverted
  rw [hr, hh]
  simp

theorem is_reverted_confirmed {f : Faults} {s : Storage} {n h : Nat}
    (hr : f.readFail = false) (hh : s.headers n = some h) :
    is_reverted f s n h = .ok (some false) := by
  unfold is_reverted
  rw [hr, hh]
  simp

theorem is_reverted_diverged {f : Faults} {s : Storage} {n h1 h2 : Nat}
    (hr : f.readFail = false) (hh : s.headers n = some h1) (hne : h1 ≠ h2) :
    is_reverted f s n h2 = .ok (some true) := by
  unfold is_reverted
  rw [hr, hh]
  simp [hne]

/-! ## Claim theorems -/

/-- C5: `is_reverted` returns `Ok(None)` exactly when no header is stored at
`block_number`, `Ok(Some(false))` exactly when the stored header's hash equals
the observed hash, `Ok(Some(true))` exactly when a header with a different hash
is stored, and propagates a storage read failure as a recoverable error. -/
theorem C5_is_reverted_classification (f : Faults) (s : Storage) (n h : Nat)
    (hr : f.readFail = false) :
    (is_reverted f s n h = .ok none ↔ s.headers n = none) ∧
    (is_reverted f s n h = .ok (some false) ↔ s.headers n = some h) ∧
    (is_reverted f s n h = .ok (some true) ↔
      ∃ h1, s.headers n = some h1 ∧ h1 ≠ h) ∧
    (∀ g : Faults, g.readFail = true →
      is_reverted g s n h = .error .storageRead) := by
  unfold is_reverted
  rw [hr]
  cases hh : s.headers n with
  | none => simp [hh]
  | some h1 =>
    refine ⟨by simp, ?_, ?_, by intro g hg; rw [hg]; simp⟩
    · simp [decide_eq_false_iff_not]
    · simp [decide_eq_true_eq]

/-- Witness for C5 at storage holding header `(3, 9)`, queried at `(3, 9)`. -/
theorem C5_witness :
    (is_reverted noFaults storage39 3 9 = .ok none ↔ storage39.headers 3 = none) ∧
    (is_reverted noFaults storage39 3 9 = .ok (some false) ↔
      storage39.headers 3 = some 9) ∧
    (is_reverted noFaults storage39 3 9 = .ok (some true) ↔
      ∃ h1, storage39.headers 3 = some h1 ∧ h1 ≠ 9) ∧
    (∀ g : Faults, g.readFail = true →
      is_reverted g storage39 3 9 = .error .storageRead) :=
  C5_is_reverted_classification noFaults storage39 3 9 rfl

/-- C10: the idle-wait branch (sleep `block_propagation_sleep_duration`,
issue no fetch) is taken exactly when the state marker equals the header
marker; for every other pair — the inverted case `state_marker >
header_marker` included — the pass requests
`stream_state_updates(state_marker, header_marker)` with no further guard. -/
theorem C10_idle_wait_branch (cfg : SyncConfig) (f : Faults) (chOpen : Bool)
    (s : Storage) (source : Nat → Nat → List (Except SyncError Item))
    (hr : f.readFail = false) :
    (s.stateMarker = s.headerMarker →
      stream_new_state_diffs cfg f chOpen s source =
        ([.slept cfg.block_propagation_sleep_duration], .ok ())) ∧
    (s.stateMarker ≠ s.headerMarker →
      (stream_new_state_diffs cfg f chOpen s source).1.head? =
        some (.fetched s.stateMarker s.headerMarker)) ∧
    (s.headerMarker < s.stateMarker →
      (stream_new_state_diffs cfg f chOpen s source).1.head? =
        some (.fetched s.stateMarker s.headerMarker)) := by
  unfold stream_new_state_diffs
  rw [hr]
  refine ⟨fun he => by simp [he], fun hne => by simp [hne], fun hlt => ?_⟩
  have hne : s.stateMarker ≠ s.headerMarker := fun he => absurd (he ▸ hlt) (Nat.lt_irrefl _)
  simp [hne]

/-- Witness for C10 on storage whose markers are inverted
(state marker 3, header marker 0): the fetch is issued for `[3, 0)`. -/
theorem C10_witness :
    ((invStorage.stateMarker = invStorage.headerMarker →
      stream_new_state_diffs cfg11 noFaults true invStorage noSource =
        ([.slept cfg11.block_propagation_sleep_duration], .ok ())) ∧
    (invStorage.stateMarker ≠ invStorage.headerMarker →
      (stream_new_state_diffs cfg11 noFaults true invStorage noSource).1.head? =
        some (.fetched invStorage.stateMarker invStorage.headerMarker)) ∧
    (invStorage.headerMarker < invStorage.stateMarker →
      (stream_new_state_diffs cfg11 noFaults true invStorage noSource).1.head? =
        some (.fetched invStorage.stateMarker invStorage.headerMarker))) ∧
    (stream_new_state_diffs cfg11 noFaults true invStorage noSource).1.head? =
      some (.fetched 3 0) := by
  refine ⟨C10_idle_wait_branch cfg11 noFaults true invStorage noSource rfl, ?_⟩
  exact (C10_idle_wait_branch cfg11 noFaults true invStorage noSource rfl).2.2 (by decide)

/-- C4 counterexample: with the channel permanently closed, the pass surfaces
the failed send as `SyncError.channelSend`, and the driver loop's reaction to
that outcome is to sleep and continue — not to terminate — refuting the claim
that the loop terminates exactly when a send permanently fails. -/
theorem C4_counterexample :
    (stream_new_state_diffs cfg11 noFaults false syncStorage oneItemSource).2 =
      .error .channelSend ∧
    run_state_diff_sync_step (.error .channelSend) = .sleepThenContinue ∧
    run_state_diff_sync_step (.error .channelSend) ≠ .exitLoop := by
  decide

/-- C4 (amended): the sync loop never terminates on a recoverable error — any
pass error, a failed channel send included, makes it sleep
`recoverable_error_sleep_duration` and restart the pass — and it never
terminates at all: no pass outcome makes the driver loop exit. -/
theorem C4_loop_never_exits (e : SyncError) :
    run_state_diff_sync_step (.error e) = .sleepThenContinue ∧
    run_state_diff_sync_step (.ok ()) = .continueNow ∧
    ∀ r : Except SyncError Unit, run_state_diff_sync_step r ≠ .exitLoop := by
  refine ⟨rfl, rfl, fun r => ?_⟩
  cases r <;> simp [run_state_diff_sync_step]

/-- Witness for C4 (amended) at the channel-closed send error. -/
theorem C4_witness :
    run_state_diff_sync_step (.error .channelSend) = .sleepThenContinue ∧
    run_state_diff_sync_step (.ok ()) = .continueNow ∧
    ∀ r : Except SyncError Unit, run_state_diff_sync_step r ≠ .exitLoop :=
  C4_loop_never_exits .channelSend

/-- C1 counterexample: with no header stored at block 5 (verdict `Unknown`),
`store_state_diff` does not attempt the canonical append — it inserts the item
as an ommer record keyed by the incoming hash 7, refuting the claim that an
`Unknown` item is eligible for canonical append and not quarantined. -/
theorem C1_counterexample :
    emptyStorage.headers 5 = none ∧
    (store_state_diff noFaults emptyStorage 5 7 emptyDiff []).2 = .ok .ommerInsert ∧
    (store_state_diff noFaults emptyStorage 5 7 emptyDiff []).2 ≠ .ok .canonicalAppend ∧
    (store_state_diff noFaults emptyStorage 5 7 emptyDiff []).1.diffs =
      emptyStorage.diffs ∧
    (store_state_diff noFaults emptyStorage 5 7 emptyDiff []).1.ommers =
      [(7, emptyDiff, [])] := by
  decide

/-- C1 (amended): when storage holds no header at `block_number`
(classification `Unknown`), `store_state_diff` never attempts the canonical
append; it quarantines the item, attempting to insert the diff and its class
definitions as an ommer record keyed by the incoming hash, and leaves canonical
storage and its markers unchanged. -/
theorem C1_unknown_routes_to_ommer (f : Faults) (s : Storage) (n h : Nat)
    (d : StateDiff) (defs : ClassDefs)
    (hh : s.headers n = none) (hr : f.readFail = false) :
    canonicalUnchanged s (store_state_diff f s n h d defs).1 ∧
    (store_state_diff f s n h d defs).2 ≠ .ok .canonicalAppend ∧
    (store_state_diff f s n h d defs).2 ≠ .ok .canonicalSkip ∧
    (f.ommerFail = false → f.commitFail = false →
      store_state_diff f s n h d defs =
        ({ s with ommers := (h, d, defs) :: s.ommers }, .ok .ommerInsert)) := by
  unfold store_state_diff insert_ommer_state_diff
  rw [is_reverted_unknown h hr hh]
  cases ho : f.ommerFail <;> cases hc : f.commitFail <;>
    simp [canonicalUnchanged]

/-- Witness for C1 (amended) at storage holding only header `(3, 9)`,
routing an item for the unknown block 5. -/
theorem C1_witness :
    canonicalUnchanged storage39 (store_state_diff noFaults storage39 5 7 emptyDiff []).1 ∧
    (store_state_diff noFaults storage39 5 7 emptyDiff []).2 ≠ .ok .canonicalAppend ∧
    (store_state_diff noFaults storage39 5 7 emptyDiff []).2 ≠ .ok .canonicalSkip ∧
    (noFaults.ommerFail = false → noFaults.commitFail = false →
      store_state_diff noFaults storage39 5 7 emptyDiff [] =
        ({ storage39 with ommers := (7, emptyDiff, []) :: storage39.ommers },
          .ok .ommerInsert)) :=
  C1_unknown_routes_to_ommer noFaults storage39 5 7 emptyDiff [] rfl rfl

/-- C2: when storage holds a header at `block_number` whose hash differs from
the incoming hash, `store_state_diff` never appends to canonical storage; the
only write it may perform is the ommer insert keyed by the incoming hash, and
canonical storage and its markers are unchanged. -/
theorem C2_diverged_routes_to_ommer (f : Faults) (s : Storage) (n h1 h2 : Nat)
    (d : StateDiff) (defs : ClassDefs)
    (hh : s.headers n = some h1) (hne : h1 ≠ h2) (hr : f.readFail = false) :
    canonicalUnchanged s (store_state_diff f s n h2 d defs).1 ∧
    (store_state_diff f s n h2 d defs).2 ≠ .ok .canonicalAppend ∧
    (store_state_diff f s n h2 d defs).2 ≠ .ok .canonicalSkip ∧
    ((store_state_diff f s n h2 d defs).1.ommers = s.ommers ∨
      (store_state_diff f s n h2 d defs).1.ommers = (h2, d, defs) :: s.ommers) ∧
    (f.ommerFail = false → f.commitFail = false →
      store_state_diff f s n h2 d defs =
        ({ s with ommers := (h2, d, defs) :: s.ommers }, .ok .ommerInsert)) := by
  unfold store_state_diff insert_ommer_state_diff
  rw [is_reverted_diverged hr hh hne]
  cases ho : f.ommerFail <;> cases hc : f.commitFail <;>
    simp [canonicalUnchanged]

/-- Witness for C2 at storage holding header `(3, 9)`, routing an item for
block 3 with the diverging hash 7. -/
theorem C2_witness :
    canonicalUnchanged storage39 (store_state_diff noFaults storage39 3 7 emptyDiff []).1 ∧
    (store_state_diff noFaults storage39 3 7 emptyDiff []).2 ≠ .ok .canonicalAppend ∧
    (store_state_diff noFaults storage39 3 7 emptyDiff []).2 ≠ .ok .canonicalSkip ∧
    ((store_state_diff noFaults storage39 3 7 emptyDiff []).1.ommers =
        storage39.ommers ∨
      (store_state_diff noFaults storage39 3 7 emptyDiff []).1.ommers =
        (7, emptyDiff, []) :: storage39.ommers) ∧
    (noFaults.ommerFail = false → noFaults.commitFail = false →
      store_state_diff noFaults storage39 3 7 emptyDiff [] =
        ({ storage39 with ommers := (7, emptyDiff, []) :: storage39.ommers },
          .ok .ommerInsert)) :=
  C2_diverged_routes_to_ommer noFaults storage39 3 9 7 emptyDiff [] rfl
    (by decide) rfl

/-- Entry-wise normalization of the storage-diff mapping preserves sortedness
of the outer keys. -/
theorem sorted_map_sortEntry {l : List (Nat × List (Nat × Nat))}
    (hs : List.Sorted keyLE l) :
    List.Sorted keyLE (l.map sortEntry) := by
  unfold List.Sorted at hs ⊢
  rw [List.pairwise_map]
  exact hs.imp fun h => h

/-- C6: `sort_state_diff` is idempotent and preserves the key-to-value pairs
of every internal mapping (recursively for the per-contract storage entries) —
only the iteration order changes. -/
theorem C6_sort_state_diff_idempotent (d : StateDiff) :
    sort_state_diff (sort_state_diff d) = sort_state_diff d ∧
    List.Perm (sort_state_diff d).deployed_contracts d.deployed_contracts ∧
    storageEquiv (sort_state_diff d).storage_diffs d.storage_diffs ∧
    List.Perm (sort_state_diff d).declared_classes d.declared_classes ∧
    List.Perm (sort_state_diff d).deprecated_declared_classes
      d.deprecated_declared_classes ∧
    List.Perm (sort_state_diff d).nonces d.nonces ∧
    List.Perm (sort_state_diff d).replaced_classes d.replaced_classes := by
  refine ⟨?_, sortKeys_perm _, ?_, sortKeys_perm _, List.Perm.refl _,
    sortKeys_perm _, List.Perm.refl _⟩
  · unfold sort_state_diff
    simp only [StateDiff.mk.injEq]
    exact ⟨sortKeys_idem _, storage_sort_idem _, sortKeys_idem _, trivial,
      sortKeys_idem _, trivial⟩
  · exact ⟨d.storage_diffs.map sortEntry, (sortKeys_perm _).map sortEntry,
      forall2_sortEntry_left d.storage_diffs⟩

/-- C3 counterexample: two diffs whose deprecated-class-declaration mappings
hold the same key-to-value pairs in different insertion orders (all keys
unique) normalize to different concrete values, because `sort_state_diff` does
not sort that mapping — refuting the claim that equality as mappings (the
deprecated-class and replaced-class mappings included) implies identical
normalized values. -/
theorem C3_counterexample :
    eqAsMappings diffDep12 diffDep21 ∧
    uniqueKeys diffDep12 ∧ uniqueKeys diffDep21 ∧
    (keysOf diffDep12.deprecated_declared_classes).Nodup ∧
    (keysOf diffDep21.deprecated_declared_classes).Nodup ∧
    sort_state_diff diffDep12 ≠ sort_state_diff diffDep21 := by
  refine ⟨⟨by decide, ⟨[], by decide, List.Forall₂.nil⟩, by decide, by decide,
    by decide, by decide⟩, ?_, ?_, by decide, by decide, by decide⟩
  · exact ⟨by decide, by decide, by decide, by decide, by decide⟩
  · exact ⟨by decide, by decide, by decide, by decide, by decide⟩

/-- C3 (amended): `sort_state_diff` places the keys of the four mappings it
sorts — deployed contracts, storage diffs (recursively including per-contract
entries), declared classes and nonces — in ascending order; consequently two
diffs with unique keys that are equal as mappings in those four mappings, and
whose deprecated-class-declaration and replaced-class mappings are identical
as sequences (those two are left untouched), normalize to identical concrete
values. -/
theorem C3_sort_deterministic (d1 d2 : StateDiff)
    (h1 : uniqueKeys d1) (heq : eqAsMappings d1 d2)
    (hdep : d1.deprecated_declared_classes = d2.deprecated_declared_classes)
    (hrep : d1.replaced_classes = d2.replaced_classes) :
    List.Sorted keyLE (sort_state_diff d1).deployed_contracts ∧
    List.Sorted keyLE (sort_state_diff d1).storage_diffs ∧
    (∀ p ∈ (sort_state_diff d1).storage_diffs, List.Sorted keyLE p.2) ∧
    List.Sorted keyLE (sort_state_diff d1).declared_classes ∧
    List.Sorted keyLE (sort_state_diff d1).nonces ∧
    sort_state_diff d1 = sort_state_diff d2 := by
  obtain ⟨hk1, hk2, hk3, hk4, hk5⟩ := h1
  obtain ⟨he1, he2, he3, _, he5, _⟩ := heq
  refine ⟨sortKeys_sorted _, sorted_map_sortEntry (sortKeys_sorted _), ?_,
    sortKeys_sorted _, sortKeys_sorted _, ?_⟩
  · intro p hp
    rcases List.mem_map.mp hp with ⟨q, _, rfl⟩
    exact sortKeys_sorted q.2
  · unfold sort_state_diff
    simp only [StateDiff.mk.injEq]
    exact ⟨sortKeys_eq_of_perm he1 hk1, storage_sort_eq he2 hk2 hk3,
      sortKeys_eq_of_perm he3 hk4, hdep, sortKeys_eq_of_perm he5 hk5, hrep⟩

/-- Witness for C3 (amended) on two nonce mappings holding `{1 ↦ 4, 2 ↦ 5}`
in opposite insertion orders. -/
theorem C3_witness :
    List.Sorted keyLE (sort_state_diff diffNon21).deployed_contracts ∧
    List.Sorted keyLE (sort_state_diff diffNon21).storage_diffs ∧
    (∀ p ∈ (sort_state_diff diffNon21).storage_diffs, List.Sorted keyLE p.2) ∧
    List.Sorted keyLE (sort_state_diff diffNon21).declared_classes ∧
    List.Sorted keyLE (sort_state_diff diffNon21).nonces ∧
    sort_state_diff diffNon21 = sort_state_diff diffNon12 :=
  C3_sort_deterministic diffNon21 diffNon12
    ⟨by decide, by decide, by decide, by decide, by decide⟩
    ⟨by decide, ⟨[], by decide, List.Forall₂.nil⟩, by decide, by decide,
      by decide, by decide⟩
    rfl rfl

/-- C7: for every item yielded by the stream, the pass sends the `SyncEvent`
carrying the normalized diff first (the send is the first observable action for
the item, before any classification effect); if the subsequent classification
says diverged, the pass sleeps `recoverable_error_sleep_duration`, stops
consuming the stream and returns `Ok` (so the driver restarts the pass); if it
says confirmed or unknown, the pass continues with the next item. -/
theorem C7_per_item_discipline (cfg : SyncConfig) (f : Faults) (s : Storage)
    (n h : Nat) (d : StateDiff) (defs : ClassDefs)
    (rest : List (Except SyncError Item)) (hr : f.readFail = false) :
    (process_items cfg f true s (.ok (n, h, d, defs) :: rest)).1.head? =
      some (.sent n h (sort_state_diff d) defs) ∧
    ((∃ h1, s.headers n = some h1 ∧ h1 ≠ h) →
      process_items cfg f true s (.ok (n, h, d, defs) :: rest) =
        ([.sent n h (sort_state_diff d) defs,
          .slept cfg.recoverable_error_sleep_duration], .ok ())) ∧
    (s.headers n = some h →
      process_items cfg f true s (.ok (n, h, d, defs) :: rest) =
        (.sent n h (sort_state_diff d) defs ::
          (process_items cfg f true s rest).1,
          (process_items cfg f true s rest).2)) ∧
    (s.headers n = none →
      process_items cfg f true s (.ok (n, h, d, defs) :: rest) =
        (.sent n h (sort_state_diff d) defs ::
          (process_items cfg f true s rest).1,
          (process_items cfg f true s rest).2)) := by
  refine ⟨?_, ?_, ?_, ?_⟩
  · cases hrev : is_reverted f s n h with
    | error e => simp [process_items, hrev]
    | ok v =>
      cases v with
      | none => simp [process_items, hrev]
      | some b => cases b <;> simp [process_items, hrev]
  · intro hdiv
    obtain ⟨h1, hh, hne⟩ := hdiv
    simp [process_items, is_reverted_diverged hr hh hne]
  · intro hh
    simp [process_items, is_reverted_confirmed hr hh]
  · intro hh
    simp [process_items, is_reverted_unknown h hr hh]

/-- Witness for C7 on storage holding header `(3, 9)` with a confirmed item
for block 3 and an empty remainder. -/
theorem C7_witness :
    (process_items cfg11 noFaults true storage39 (.ok (3, 9, emptyDiff, []) :: [])).1.head? =
      some (.sent 3 9 (sort_state_diff emptyDiff) []) ∧
    ((∃ h1, storage39.headers 3 = some h1 ∧ h1 ≠ 9) →
      process_items cfg11 noFaults true storage39 (.ok (3, 9, emptyDiff, []) :: []) =
        ([.sent 3 9 (sort_state_diff emptyDiff) [],
          .slept cfg11.recoverable_error_sleep_duration], .ok ())) ∧
    (storage39.headers 3 = some 9 →
      process_items cfg11 noFaults true storage39 (.ok (3, 9, emptyDiff, []) :: []) =
        (.sent 3 9 (sort_state_diff emptyDiff) [] ::
          (process_items cfg11 noFaults true storage39 []).1,
          (process_items cfg11 noFaults true storage39 []).2)) ∧
    (storage39.headers 3 = none →
      process_items cfg11 noFaults true storage39 (.ok (3, 9, emptyDiff, []) :: []) =
        (.sent 3 9 (sort_state_diff emptyDiff) [] ::
          (process_items cfg11 noFaults true storage39 []).1,
          (process_items cfg11 noFaults true storage39 []).2)) :=
  C7_per_item_discipline cfg11 noFaults storage39 3 9 emptyDiff [] [] rfl

/-- The three possible storage outcomes of one routing call: unchanged
storage, an ommer insert, or a successful canonical append (the only case
that moves the state marker, and only when the marker matched and stayed below
the header marker). -/
theorem store_state_diff_cases (f : Faults) (s : Storage) (n h : Nat)
    (d : StateDiff) (defs : ClassDefs) :
    (store_state_diff f s n h d defs).1 = s ∨
    ((store_state_diff f s n h d defs).1 =
      { s with ommers := (h, d, defs) :: s.ommers }) ∨
    ((store_state_diff f s n h d defs).1 =
        { s with stateMarker := n + 1, diffs := (n, d) :: s.diffs } ∧
      n = s.stateMarker ∧ s.stateMarker < s.headerMarker ∧
      (store_state_diff f s n h d defs).2 = .ok .canonicalAppend) := by
  cases hrev : is_reverted f s n h with
  | error e => simp [store_state_diff, hrev]
  | ok v =>
    cases v with
    | none =>
      cases ho : f.ommerFail <;> cases hc : f.commitFail <;>
        simp [store_state_diff, insert_ommer_state_diff, hrev, ho, hc]
    | some b =>
      cases b with
      | true =>
        cases ho : f.ommerFail <;> cases hc : f.commitFail <;>
          simp [store_state_diff, insert_ommer_state_diff, hrev, ho, hc]
      | false =>
        cases ha : f.appendFail with
        | true => simp [store_state_diff, append_state_diff, hrev, ha]
        | false =>
          by_cases hcond : n = s.stateMarker ∧ s.stateMarker < s.headerMarker
          · obtain ⟨hn, hlt⟩ := hcond
            subst hn
            cases hc : f.commitFail with
            | true => simp [store_state_diff, append_state_diff, hrev, ha, hc, hlt]
            | false =>
              refine Or.inr (Or.inr ⟨?_, rfl, hlt, ?_⟩) <;>
                simp [store_state_diff, append_state_diff, hrev, ha, hc, hlt]
          · simp [store_state_diff, append_state_diff, hrev, ha, hcond]

/-- One engine operation keeps the state marker monotone and below or at the
header marker. -/
theorem applyOp_markers (s : Storage) (op : EngineOp)
    (h : s.stateMarker ≤ s.headerMarker) :
    s.stateMarker ≤ (applyOp s op).stateMarker ∧
    (applyOp s op).stateMarker ≤ (applyOp s op).headerMarker := by
  cases op with
  | appendHeader hb =>
    simp only [applyOp]
    exact ⟨Nat.le_refl _, Nat.le_trans h (Nat.le_succ _)⟩
  | route f n hb d defs =>
    rcases store_state_diff_cases f s n hb d defs with hc | hc | hc
    · simp only [applyOp, hc]
      exact ⟨Nat.le_refl _, h⟩
    · simp only [applyOp, hc]
      exact ⟨Nat.le_refl _, h⟩
    · simp only [applyOp, hc.1]
      exact ⟨hc.2.1 ▸ Nat.le_succ _, hc.2.1 ▸ hc.2.2.1⟩

/-- Marker monotonicity and the marker invariant over any operation
sequence. -/
theorem applyOps_markers (ops : List EngineOp) :
    ∀ s : Storage, s.stateMarker ≤ s.headerMarker →
      s.stateMarker ≤ (applyOps s ops).stateMarker ∧
      (applyOps s ops).stateMarker ≤ (applyOps s ops).headerMarker := by
  induction ops with
  | nil => intro s h; exact ⟨Nat.le_refl _, h⟩
  | cons op rest ih =>
    intro s h
    have h1 := applyOp_markers s op h
    have h2 := ih (applyOp s op) h1.2
    exact ⟨Nat.le_trans h1.1 h2.1, h2.2⟩

/-- C8: across every sequence of engine operations the state-diff marker never
decreases and never exceeds the header marker; the sync loop only requests the
half-open range `[state_marker, header_marker)`; and the durable state marker
is advanced only by a successful canonical append followed by a commit. -/
theorem C8_marker_invariant (s : Storage) (ops : List EngineOp)
    (hInv : s.stateMarker ≤ s.headerMarker) :
    s.stateMarker ≤ (applyOps s ops).stateMarker ∧
    (applyOps s ops).stateMarker ≤ (applyOps s ops).headerMarker ∧
    (∀ cfg f chOpen source, f.readFail = false →
      s.stateMarker ≠ s.headerMarker →
      (stream_new_state_diffs cfg f chOpen s source).1.head? =
        some (.fetched s.stateMarker s.headerMarker)) ∧
    (∀ f n h d defs,
      (store_state_diff f s n h d defs).1.stateMarker ≠ s.stateMarker →
        (store_state_diff f s n h d defs).2 = .ok .canonicalAppend ∧
        (store_state_diff f s n h d defs).1.stateMarker = s.stateMarker + 1) := by
  have hm := applyOps_markers ops s hInv
  refine ⟨hm.1, hm.2, ?_, ?_⟩
  · intro cfg f chOpen source hr hne
    unfold stream_new_state_diffs
    rw [hr]
    simp [hne]
  · intro f n h d defs hchg
    rcases store_state_diff_cases f s n h d defs with hc | hc | hc
    · rw [hc] at hchg
      exact absurd rfl hchg
    · rw [hc] at hchg
      exact absurd rfl hchg
    · rw [hc.1] at hchg ⊢
      exact ⟨hc.2.2.2, by simp [hc.2.1]⟩

/-- Witness for C8 on syncable storage (markers 0 and 2, header `(0, 9)`)
under a canonical append followed by a header append. -/
theorem C8_witness :
    syncStorage.stateMarker ≤
      (applyOps syncStorage
        [.route noFaults 0 9 emptyDiff [], .appendHeader 5]).stateMarker ∧
    (applyOps syncStorage
        [.route noFaults 0 9 emptyDiff [], .appendHeader 5]).stateMarker ≤
      (applyOps syncStorage
        [.route noFaults 0 9 emptyDiff [], .appendHeader 5]).headerMarker ∧
    (∀ cfg f chOpen source, f.readFail = false →
      syncStorage.stateMarker ≠ syncStorage.headerMarker →
      (stream_new_state_diffs cfg f chOpen syncStorage source).1.head? =
        some (.fetched syncStorage.stateMarker syncStorage.headerMarker)) ∧
    (∀ f n h d defs,
      (store_state_diff f syncStorage n h d defs).1.stateMarker ≠
          syncStorage.stateMarker →
        (store_state_diff f syncStorage n h d defs).2 = .ok .canonicalAppend ∧
        (store_state_diff f syncStorage n h d defs).1.stateMarker =
          syncStorage.stateMarker + 1) :=
  C8_marker_invariant syncStorage
    [.route noFaults 0 9 emptyDiff [], .appendHeader 5] (by decide)

/-- C9: a structural write failure inside `store_state_diff` — a forced
append/insert failure or a marker mismatch — is recovered locally: the call
returns `Ok` after skipping the item, storage is unchanged, no commit happens,
and the (spec-modelled) router loop proceeds to the next item whatever this
item's outcome was. -/
theorem C9_structural_skip (f : Faults) (s : Storage) (n h : Nat)
    (d : StateDiff) (defs : ClassDefs) (hr : f.readFail = false) :
    (s.headers n = some h →
      (f.appendFail = true ∨ n ≠ s.stateMarker ∨ ¬ s.stateMarker < s.headerMarker) →
      store_state_diff f s n h d defs = (s, .ok .canonicalSkip)) ∧
    (s.headers n ≠ some h → f.ommerFail = true →
      store_state_diff f s n h d defs = (s, .ok .ommerSkip)) ∧
    (∀ rest, commit_router_run s ((f, (n, h, d, defs)) :: rest) =
      commit_router_run (store_state_diff f s n h d defs).1 rest) := by
  refine ⟨?_, ?_, fun rest => rfl⟩
  · intro hh hfail
    have happ : append_state_diff f s n d = none := by
      unfold append_state_diff
      cases ha : f.appendFail with
      | true => simp
      | false =>
        have hcond : ¬(n = s.stateMarker ∧ s.stateMarker < s.headerMarker) := by
          rcases hfail with h1 | h1 | h1
          · rw [ha] at h1
            exact absurd h1 (by simp)
          · exact fun hc => h1 hc.1
          · exact fun hc => h1 hc.2
        simp [hcond]
    simp [store_state_diff, is_reverted_confirmed hr hh, happ]
  · intro hh ho
    have hins : insert_ommer_state_diff f s h d defs = none := by
      simp [insert_ommer_state_diff, ho]
    cases hv : s.headers n with
    | none => simp [store_state_diff, is_reverted_unknown h hr hv, hins]
    | some h1 =>
      have hne : h1 ≠ h := fun he => hh (he ▸ hv)
      simp [store_state_diff, is_reverted_diverged hr hv hne, hins]

/-- Witness for C9 with both structural writes forced to fail, on storage
holding header `(3, 9)`. -/
theorem C9_witness :
    (storage39.headers 3 = some 9 →
      (structFaults.appendFail = true ∨ 3 ≠ storage39.stateMarker ∨
        ¬ storage39.stateMarker < storage39.headerMarker) →
      store_state_diff structFaults storage39 3 9 emptyDiff [] =
        (storage39, .ok .canonicalSkip)) ∧
    (storage39.headers 3 ≠ some 9 → structFaults.ommerFail = true →
      store_state_diff structFaults storage39 3 9 emptyDiff [] =
        (storage39, .ok .ommerSkip)) ∧
    (∀ rest, commit_router_run storage39 ((structFaults, (3, 9, emptyDiff, [])) :: rest) =
      commit_router_run (store_state_diff structFaults storage39 3 9 emptyDiff []).1 rest) :=
  C9_structural_skip structFaults storage39 3 9 emptyDiff [] rfl

end Papyrus
